import Mathlib

/-
Verification of the device/stream context manager of libgpucrypto
(src/libgpucrypto/device_context.h).

The repository ships only the interface header: the declarations, the
constants MAX_STREAM and MAX_BLOCKS, the `state` enum, the
`stream_context_t` and `device_context_t` structs, and doc comments for
every operation. The function bodies (device_context.cc) are not part of
the sources, so the operational behaviour below is modelled from the
specification, while the data model, the constants and every signature
follow the header.

Modelling conventions:
- `cudaStream_t` handles are abstract naturals.
- The host-visible and device-visible checkbit pointers (`checkbits`,
  `checkbits_d`) address the same host-mapped byte region; the model keeps
  one byte list `checkbits` for the pair, and `device_context_get_dev_checkbits`
  returns the device view of it.
- External collaborators appear as explicit arguments: the timestamp
  source as a `now : Nat` argument on the operations that read it, the
  allocator success as `alloc_ok : Bool` on init, and the stream-local
  copy-completion query (WAIT_COPY) as `copy_done : Bool` on sync.
- Machine integers (`uint64_t` timestamps) are naturals; the uint64
  subtraction in `get_elapsed_time` is taken modulo 2 ^ 64.
- The busy-wait of a blocking sync is modelled by its observable outcome:
  the device is external, so during the poll loop the checkbits do not
  change; the loop returns exactly when the completion signal is present,
  and diverges (modelled as `none`) when it is absent.
-/

set_option autoImplicit false

namespace GpuCrypto

/-- MAX_STREAM from device_context.h line 9. -/
def MAX_STREAM : Nat := 16

/-- MAX_BLOCKS from device_context.h line 10. -/
def MAX_BLOCKS : Nat := 8192

/-- The uint64 modulus for the timestamp fields. -/
def U64 : Nat := 2 ^ 64

/-- Enum for stream state, device_context.h lines 18-22. -/
inductive state where
  | READY
  | WAIT_KERNEL
  | WAIT_COPY
deriving DecidableEq, Repr

/-- stream_context_t, device_context.h lines 24-36. `stream` stands for the
cudaStream_t handle; `checkbits` is the host-mapped byte buffer shared by
the host pointer `checkbits` and the device pointer `checkbits_d` of the
source struct. -/
structure stream_context_t where
  stream : Nat
  state : state
  finished : Bool
  checkbits : List Nat
  num_blks : Nat
  begin_usec : Nat
  end_usec : Nat
deriving DecidableEq, Repr

/-- device_context_t, device_context.h lines 38-41: a fixed array of
MAX_STREAM + 1 stream contexts (slot 0 is for the default stream) and the
number of created streams. -/
structure device_context_t where
  stream_ctx : Fin (MAX_STREAM + 1) → stream_context_t
  nstream : Nat

/-- Replace one slot of the stream-context array. -/
def upd_stream (dc : device_context_t) (stream_id : Fin (MAX_STREAM + 1))
    (sc : stream_context_t) : device_context_t :=
  { dc with stream_ctx := Function.update dc.stream_ctx stream_id sc }

/-- A stream id is valid when it addresses the default slot 0 of a context
initialized with no streams, or one of slots 1..nstream otherwise
(device_context.h doc comments, lines 58-59). -/
def valid_stream_id (dc : device_context_t) (stream_id : Fin (MAX_STREAM + 1)) : Prop :=
  (dc.nstream = 0 ∧ stream_id.val = 0) ∨ (1 ≤ stream_id.val ∧ stream_id.val ≤ dc.nstream)

instance (dc : device_context_t) (stream_id : Fin (MAX_STREAM + 1)) :
    Decidable (valid_stream_id dc stream_id) := by
  unfold valid_stream_id; infer_instance

/-- The fresh stream context produced by initialization: state READY,
finished, zeroed timestamps, no expected blocks, a zeroed checkbit buffer
of MAX_BLOCKS bytes. Slot i wraps hardware stream handle i (slot 0 holds
the default stream). -/
def init_stream_ctx (i : Nat) : stream_context_t :=
  { stream := i
    state := state.READY
    finished := true
    checkbits := List.replicate MAX_BLOCKS 0
    num_blks := 0
    begin_usec := 0
    end_usec := 0 }

/-- Modelled from the spec: the body of `device_context_init`
(device_context.h line 53) is not among the sources. Per spec section 4.1
it fails when the requested stream count exceeds MAX_STREAM or when an
underlying resource allocation fails (modelled by `alloc_ok = false`), and
otherwise returns a context whose every stream slot is READY, finished,
with zeroed timestamps and counters. `none` models the false return. -/
def device_context_init (nstream : Nat) (alloc_ok : Bool) : Option device_context_t :=
  if MAX_STREAM < nstream then none
  else if alloc_ok = false then none
  else some { stream_ctx := fun i => init_stream_ctx i.val, nstream := nstream }

/-- All of the first `num_blks` checkbits of a stream are set: the
kernel-completion test of the checkbit protocol (spec section 4.3). -/
def kernel_complete (sc : stream_context_t) : Bool :=
  (sc.checkbits.take sc.num_blks).all (fun b => b != 0)

/-- Completion of the current operation of a stream: immediate for READY,
all checkbits set for WAIT_KERNEL, the stream-local query result for
WAIT_COPY (spec section 4.4). -/
def stream_complete (sc : stream_context_t) (copy_done : Bool) : Bool :=
  match sc.state with
  | state.READY => true
  | state.WAIT_KERNEL => kernel_complete sc
  | state.WAIT_COPY => copy_done

/-- Modelled from the spec: the body of `device_context_sync`
(device_context.h line 63) is not among the sources. Per spec section 4.4:
with `block = false` it performs one non-blocking completion check and
mutates nothing; with `block = true` it returns true immediately without
re-timing when the stream is already finished, and otherwise busy-polls
until completion, then records `end_usec` from the timestamp source, sets
`finished` and state READY. The device is external, so the checkbits are
constant during the poll: the blocking call is `none` (divergence) exactly
when the completion signal is absent. -/
def device_context_sync (dc : device_context_t) (stream_id : Fin (MAX_STREAM + 1))
    (block : Bool) (now : Nat) (copy_done : Bool) : Option (device_context_t × Bool) :=
  let sc := dc.stream_ctx stream_id
  if block then
    if sc.finished then
      some (dc, true)
    else if stream_complete sc copy_done then
      some (upd_stream dc stream_id
        { sc with finished := true, state := state.READY, end_usec := now }, true)
    else
      none
  else
    some (dc, stream_complete sc copy_done)

/-- Modelled from the spec: the body of `device_context_set_state`
(device_context.h line 71) is not among the sources. It records the
caller-declared state; per spec section 4.5, the transition out of READY
(to WAIT_KERNEL or WAIT_COPY) is the point where `begin_usec` is read from
the timestamp source, and it clears `finished` since a new operation is
now in flight. -/
def device_context_set_state (dc : device_context_t) (stream_id : Fin (MAX_STREAM + 1))
    (s : state) (now : Nat) : device_context_t :=
  let sc := dc.stream_ctx stream_id
  match s with
  | state.READY => upd_stream dc stream_id { sc with state := state.READY }
  | state.WAIT_KERNEL => upd_stream dc stream_id
      { sc with state := state.WAIT_KERNEL, finished := false, begin_usec := now }
  | state.WAIT_COPY => upd_stream dc stream_id
      { sc with state := state.WAIT_COPY, finished := false, begin_usec := now }

/-- Modelled from the spec: the body of `device_context_get_state`
(device_context.h line 79) is not among the sources. A pure read of the
stream's state. -/
def device_context_get_state (dc : device_context_t)
    (stream_id : Fin (MAX_STREAM + 1)) : state :=
  (dc.stream_ctx stream_id).state

/-- Modelled from the spec: the body of `device_context_get_dev_checkbits`
(device_context.h line 97) is not among the sources. Returns the
device-visible view of the stream's host-mapped checkbit buffer; in this
model the host and device views are the one `checkbits` byte list. -/
def device_context_get_dev_checkbits (dc : device_context_t)
    (stream_id : Fin (MAX_STREAM + 1)) : List Nat :=
  (dc.stream_ctx stream_id).checkbits

/-- Modelled from the spec: the body of `device_context_clear_checkbits`
(device_context.h line 105) is not among the sources. Per spec section
4.3 it resets the first `num_blks` bytes of the stream's checkbit buffer
to 0 and records `num_blks`. -/
def device_context_clear_checkbits (dc : device_context_t)
    (stream_id : Fin (MAX_STREAM + 1)) (num_blks : Nat) : device_context_t :=
  let sc := dc.stream_ctx stream_id
  upd_stream dc stream_id
    { sc with
      checkbits := List.replicate num_blks 0 ++ sc.checkbits.drop num_blks
      num_blks := num_blks }

/-- Modelled from the spec: the body of `device_context_get_stream`
(device_context.h line 114) is not among the sources. A pure read of the
stream handle of the slot. -/
def device_context_get_stream (dc : device_context_t)
    (stream_id : Fin (MAX_STREAM + 1)) : Nat :=
  (dc.stream_ctx stream_id).stream

/-- Modelled from the spec: the body of `device_context_use_stream`
(device_context.h line 121) is not among the sources. Whether the context
was initialized with a nonzero number of streams. -/
def device_context_use_stream (dc : device_context_t) : Bool :=
  dc.nstream != 0

/-- Modelled from the spec: the body of `device_context_get_elapsed_time`
(device_context.h line 133) is not among the sources. Returns
`end_usec - begin_usec` in uint64 arithmetic (mod 2 ^ 64). -/
def device_context_get_elapsed_time (dc : device_context_t)
    (stream_id : Fin (MAX_STREAM + 1)) : Nat :=
  let sc := dc.stream_ctx stream_id
  (U64 + sc.end_usec - sc.begin_usec) % U64

/-- Models the external kernel collaborator writing its completion
markers: sets the first `n` bytes of the stream's checkbit buffer to 1
(spec section 4.3: one write-once-to-1 per execution unit). -/
def write_checkbits (dc : device_context_t) (stream_id : Fin (MAX_STREAM + 1))
    (n : Nat) : device_context_t :=
  let sc := dc.stream_ctx stream_id
  upd_stream dc stream_id
    { sc with checkbits := List.replicate n 1 ++ sc.checkbits.drop n }

/-- The parameter list of the C declaration of `device_context_init`
(device_context.h line 53):
`uint8_t device_context_init(device_context_t *dc, const unsigned nstream)`. -/
def device_context_init_decl_params : List String := ["dc", "nstream"]

/-- The parameter names documented in the doc comment of
`device_context_init` (device_context.h lines 46-47): `@param size Total
amount of memory per stream` and `@param nstream Number of streams to
use`. -/
def device_context_init_doc_params : List String := ["size", "nstream"]

/-- A context freshly initialized with two streams, used as a concrete
test vehicle. -/
def dc2 : device_context_t :=
  { stream_ctx := fun i => init_stream_ctx i.val, nstream := 2 }

/-- Observation of a blocking-sync result: the returned boolean and the
addressed slot's finished flag, state and end timestamp. -/
def sync_observe (stream_id : Fin (MAX_STREAM + 1)) (p : device_context_t × Bool) :
    Bool × state × Bool × Nat :=
  (p.2, (p.1.stream_ctx stream_id).state, (p.1.stream_ctx stream_id).finished,
    (p.1.stream_ctx stream_id).end_usec)

/-- Projection of a sync result to one slot of the resulting context. -/
def slot (j : Fin (MAX_STREAM + 1)) (p : device_context_t × Bool) : stream_context_t :=
  p.1.stream_ctx j

/-- Projection of a sync result to the elapsed time of one stream. -/
def elapsed_of (stream_id : Fin (MAX_STREAM + 1)) (p : device_context_t × Bool) : Nat :=
  device_context_get_elapsed_time p.1 stream_id

/-- A context whose stream 1 has a kernel in flight (WAIT_KERNEL, begun at
time 5, 4 expected blocks) with all 4 completion markers already written
by the device: a concrete completed-but-unsynced test vehicle. -/
def dcK : device_context_t :=
  write_checkbits
    (device_context_clear_checkbits
      (device_context_set_state dc2 1 state.WAIT_KERNEL 5) 1 4) 1 4

/-- Claim C4: init returns false exactly when the requested stream count
exceeds MAX_STREAM (16) or some underlying resource allocation fails; for
every stream count up to 16 with allocations succeeding it returns true
(stream count 17 is the instance 16 < 17 of the right-hand side). -/
theorem device_context_init_success_iff (nstream : Nat) (alloc_ok : Bool) :
    (device_context_init nstream alloc_ok).isSome = true
      ↔ (nstream ≤ MAX_STREAM ∧ alloc_ok = true) := by
  unfold device_context_init
  rcases Nat.lt_or_ge MAX_STREAM nstream with h | h
  · simp [h]
  · rcases alloc_ok with _ | _
    · simp [Nat.not_lt_of_ge h]
    · simp [Nat.not_lt_of_ge h]
      exact h

/-- Claim C5: when init returns true, every stream context of the device
context is in state READY with finished = true, begin_usec = 0,
end_usec = 0 and num_blks = 0. -/
theorem device_context_init_post (nstream : Nat) (alloc_ok : Bool)
    (dc : device_context_t) (i : Fin (MAX_STREAM + 1))
    (h : device_context_init nstream alloc_ok = some dc) :
    (dc.stream_ctx i).state = state.READY
    ∧ (dc.stream_ctx i).finished = true
    ∧ (dc.stream_ctx i).begin_usec = 0
    ∧ (dc.stream_ctx i).end_usec = 0
    ∧ (dc.stream_ctx i).num_blks = 0 := by
  unfold device_context_init at h
  split at h
  · exact absurd h (by simp)
  · split at h
    · exact absurd h (by simp)
    · injection h with h
      subst h
      simp [init_stream_ctx]

/-- Witness for C5 at nstream = 2, alloc_ok = true, slot 1. -/
theorem device_context_init_post_witness :
    device_context_init 2 true = some dc2
    ∧ ((dc2.stream_ctx 1).state = state.READY
       ∧ (dc2.stream_ctx 1).finished = true
       ∧ (dc2.stream_ctx 1).begin_usec = 0
       ∧ (dc2.stream_ctx 1).end_usec = 0
       ∧ (dc2.stream_ctx 1).num_blks = 0) :=
  ⟨rfl, device_context_init_post 2 true dc2 1 rfl⟩

/-- Claim C7: for every valid stream id and every state s, set_state
followed immediately by get_state returns s (get_state is a pure read by
construction: it returns a state value and takes the context by value). -/
theorem device_context_set_get_state (dc : device_context_t)
    (stream_id : Fin (MAX_STREAM + 1)) (s : state) (now : Nat)
    (hv : valid_stream_id dc stream_id) :
    device_context_get_state (device_context_set_state dc stream_id s now) stream_id = s := by
  cases s <;>
    simp [device_context_get_state, device_context_set_state, upd_stream,
      Function.update_same]

/-- Witness for C7 on dc2, stream 1, state WAIT_KERNEL. -/
theorem device_context_set_get_state_witness :
    valid_stream_id dc2 1
    ∧ device_context_get_state (device_context_set_state dc2 1 state.WAIT_KERNEL 5) 1
        = state.WAIT_KERNEL :=
  ⟨by decide, device_context_set_get_state dc2 1 state.WAIT_KERNEL 5 (by decide)⟩

/-- Claim C6: for every valid stream id and num_blks ≤ MAX_BLOCKS,
clear_checkbits records num_blks in the stream context and zeroes the
first num_blks bytes of the checkbit buffer, so reading the device
checkbit buffer immediately afterwards yields num_blks zero bytes. -/
theorem device_context_clear_checkbits_spec (dc : device_context_t)
    (stream_id : Fin (MAX_STREAM + 1)) (num_blks : Nat)
    (hv : valid_stream_id dc stream_id) (hn : num_blks ≤ MAX_BLOCKS) :
    ((device_context_clear_checkbits dc stream_id num_blks).stream_ctx stream_id).num_blks
      = num_blks
    ∧ ((device_context_clear_checkbits dc stream_id num_blks).stream_ctx
        stream_id).checkbits.take num_blks = List.replicate num_blks 0
    ∧ (device_context_get_dev_checkbits
        (device_context_clear_checkbits dc stream_id num_blks) stream_id).take num_blks
      = List.replicate num_blks 0 := by
  refine ⟨?_, ?_, ?_⟩ <;>
    simp [device_context_clear_checkbits, device_context_get_dev_checkbits, upd_stream,
      Function.update_same, List.take_append_of_le_length, List.take_replicate]

/-- Witness for C6 on dc2, stream 1, 4 blocks. -/
theorem device_context_clear_checkbits_spec_witness :
    valid_stream_id dc2 1 ∧ 4 ≤ MAX_BLOCKS
    ∧ (((device_context_clear_checkbits dc2 1 4).stream_ctx 1).num_blks = 4
       ∧ ((device_context_clear_checkbits dc2 1 4).stream_ctx 1).checkbits.take 4
           = List.replicate 4 0
       ∧ (device_context_get_dev_checkbits (device_context_clear_checkbits dc2 1 4) 1).take 4
           = List.replicate 4 0) :=
  ⟨by decide, by decide, device_context_clear_checkbits_spec dc2 1 4 (by decide) (by decide)⟩

/-- Claim C3: sync is idempotent on completed streams: on a stream already
in READY with finished = true, a blocking sync returns true with the
context unchanged (so end_usec is not re-recorded), and a second
consecutive blocking call (at a later time, any copy-query result) again
returns true with the context unchanged. -/
theorem device_context_sync_idempotent (dc : device_context_t)
    (stream_id : Fin (MAX_STREAM + 1)) (now now2 : Nat) (copy_done copy_done2 : Bool)
    (hv : valid_stream_id dc stream_id)
    (hs : (dc.stream_ctx stream_id).state = state.READY)
    (hf : (dc.stream_ctx stream_id).finished = true) :
    device_context_sync dc stream_id true now copy_done = some (dc, true)
    ∧ device_context_sync dc stream_id true now2 copy_done2 = some (dc, true) := by
  unfold device_context_sync
  simp [hf]

/-- Witness for C3 on dc2, stream 1, two consecutive calls at times 7 and 8. -/
theorem device_context_sync_idempotent_witness :
    valid_stream_id dc2 1
    ∧ (dc2.stream_ctx 1).state = state.READY
    ∧ (dc2.stream_ctx 1).finished = true
    ∧ (device_context_sync dc2 1 true 7 false = some (dc2, true)
       ∧ device_context_sync dc2 1 true 8 true = some (dc2, true)) :=
  ⟨by decide, by decide, by decide,
    device_context_sync_idempotent dc2 1 7 8 false true (by decide) (by decide) (by decide)⟩

/-- Claim C10: the declared C interface of device_context_init takes only
the device context and the stream count; the per-stream byte capacity
parameter named by its own doc comment (param size) is absent from the
declared parameter list. -/
theorem device_context_init_missing_size_param :
    "size" ∈ device_context_init_doc_params
    ∧ "size" ∉ device_context_init_decl_params := by
  constructor
  · simp [device_context_init_doc_params]
  · simp [device_context_init_decl_params]

/-- Claim C1: a blocking sync on a stream with an operation in flight
(finished = false) whose completion signal is present busy-polls without
any blocking runtime call (the poll is the completion predicate on the
host-mapped buffer, the device being external) and then returns true
having set finished = true, state READY, and end_usec from the timestamp
source. -/
theorem device_context_sync_block_spec (dc : device_context_t)
    (stream_id : Fin (MAX_STREAM + 1)) (now : Nat) (copy_done : Bool)
    (hv : valid_stream_id dc stream_id)
    (hf : (dc.stream_ctx stream_id).finished = false)
    (hc : stream_complete (dc.stream_ctx stream_id) copy_done = true) :
    (device_context_sync dc stream_id true now copy_done).map (sync_observe stream_id)
      = some (true, state.READY, true, now) := by
  unfold device_context_sync
  simp [hf, hc, sync_observe, upd_stream, Function.update_same]

/-- Witness for C1 on dcK (stream 1 in WAIT_KERNEL with all 4 checkbits
written), synced at time 9. -/
theorem device_context_sync_block_spec_witness :
    valid_stream_id dcK 1
    ∧ (dcK.stream_ctx 1).finished = false
    ∧ stream_complete (dcK.stream_ctx 1) false = true
    ∧ (device_context_sync dcK 1 true 9 false).map (sync_observe 1)
        = some (true, state.READY, true, 9) :=
  ⟨by decide, by decide, by decide,
    device_context_sync_block_spec dcK 1 9 false (by decide) (by decide) (by decide)⟩

/-- On a stream in WAIT_KERNEL, completion of the current operation is
exactly the checkbit test. -/
theorem stream_complete_eq (sc : stream_context_t) (copy_done : Bool)
    (h : sc.state = state.WAIT_KERNEL) :
    stream_complete sc copy_done = kernel_complete sc := by
  unfold stream_complete
  split <;> simp_all

/-- Claim C2: a non-blocking sync on a stream in WAIT_KERNEL is a single
check returning whether all num_blks checkbits are set, and never mutates
the context (in particular not on a false result); immediately after
clear_checkbits with n > 0 blocks it returns false on the unchanged
context. -/
theorem device_context_sync_nonblock_spec (dc : device_context_t)
    (stream_id : Fin (MAX_STREAM + 1)) (now : Nat) (copy_done : Bool) (n : Nat)
    (hv : valid_stream_id dc stream_id)
    (hs : (dc.stream_ctx stream_id).state = state.WAIT_KERNEL)
    (hn : 0 < n) :
    device_context_sync dc stream_id false now copy_done
      = some (dc, kernel_complete (dc.stream_ctx stream_id))
    ∧ device_context_sync (device_context_clear_checkbits dc stream_id n)
        stream_id false now copy_done
      = some (device_context_clear_checkbits dc stream_id n, false) := by
  constructor
  · simp only [device_context_sync]
    rw [stream_complete_eq _ copy_done hs]
    simp
  · have hslot : (device_context_clear_checkbits dc stream_id n).stream_ctx stream_id
        = { dc.stream_ctx stream_id with
            checkbits :=
              List.replicate n 0 ++ (dc.stream_ctx stream_id).checkbits.drop n
            num_blks := n } := by
      simp [device_context_clear_checkbits, upd_stream, Function.update_same]
    simp only [device_context_sync, hslot]
    rw [stream_complete_eq _ copy_done (by simp [hs])]
    obtain ⟨m, rfl⟩ : ∃ m, n = m + 1 := ⟨n - 1, by omega⟩
    simp [kernel_complete, List.take_append_of_le_length, List.take_replicate,
      List.replicate_succ]

/-- Witness for C2 on stream 1 of dc2 moved to WAIT_KERNEL, with 4 blocks
cleared. -/
theorem device_context_sync_nonblock_spec_witness :
    valid_stream_id (device_context_set_state dc2 1 state.WAIT_KERNEL 5) 1
    ∧ ((device_context_set_state dc2 1 state.WAIT_KERNEL 5).stream_ctx 1).state
        = state.WAIT_KERNEL
    ∧ (0 : Nat) < 4
    ∧ (device_context_sync (device_context_set_state dc2 1 state.WAIT_KERNEL 5) 1 false 7 false
        = some (device_context_set_state dc2 1 state.WAIT_KERNEL 5,
            kernel_complete ((device_context_set_state dc2 1 state.WAIT_KERNEL 5).stream_ctx 1))
       ∧ device_context_sync
           (device_context_clear_checkbits (device_context_set_state dc2 1 state.WAIT_KERNEL 5) 1 4)
           1 false 7 false
         = some (device_context_clear_checkbits
             (device_context_set_state dc2 1 state.WAIT_KERNEL 5) 1 4, false)) :=
  ⟨by decide, by decide, by decide,
    device_context_sync_nonblock_spec (device_context_set_state dc2 1 state.WAIT_KERNEL 5)
      1 7 false 4 (by decide) (by decide) (by decide)⟩

/-- Claim C8: cross-stream isolation. For distinct valid stream ids i and
j, the operations invoked with stream id i neither modify slot j (sync,
set_state and clear_checkbits leave the stream context in slot j exactly
as it was) nor read it (on any context dcb that agrees with dc on slot i,
get_dev_checkbits, get_elapsed_time, the sync result boolean, and the
slot-i effect of clear_checkbits and set_state are the same as on dc). -/
theorem device_context_stream_isolation (dc dcb : device_context_t)
    (i j : Fin (MAX_STREAM + 1)) (block : Bool) (now : Nat) (copy_done : Bool)
    (s : state) (n : Nat)
    (hvi : valid_stream_id dc i) (hvj : valid_stream_id dc j) (hij : i ≠ j)
    (hagree : dcb.stream_ctx i = dc.stream_ctx i) :
    (device_context_sync dc i block now copy_done).map (slot j)
      = (device_context_sync dc i block now copy_done).map
          (Function.const (device_context_t × Bool) (dc.stream_ctx j))
    ∧ (device_context_set_state dc i s now).stream_ctx j = dc.stream_ctx j
    ∧ (device_context_clear_checkbits dc i n).stream_ctx j = dc.stream_ctx j
    ∧ device_context_get_dev_checkbits dcb i = device_context_get_dev_checkbits dc i
    ∧ device_context_get_elapsed_time dcb i = device_context_get_elapsed_time dc i
    ∧ (device_context_sync dcb i block now copy_done).map Prod.snd
      = (device_context_sync dc i block now copy_done).map Prod.snd
    ∧ (device_context_clear_checkbits dcb i n).stream_ctx i
      = (device_context_clear_checkbits dc i n).stream_ctx i
    ∧ (device_context_set_state dcb i s now).stream_ctx i
      = (device_context_set_state dc i s now).stream_ctx i := by
  refine ⟨?_, ?_, ?_, ?_, ?_, ?_, ?_, ?_⟩
  · rcases block with _ | _
    · simp [device_context_sync, slot, Function.const]
    · by_cases hf : (dc.stream_ctx i).finished = true
      · simp [device_context_sync, hf, slot, Function.const]
      · by_cases hc : stream_complete (dc.stream_ctx i) copy_done = true
        · simp [device_context_sync, hf, hc, slot, Function.const, upd_stream,
            Function.update_noteq (Ne.symm hij)]
        · simp [device_context_sync, hf, hc]
  · cases s <;>
      simp [device_context_set_state, upd_stream, Function.update_noteq (Ne.symm hij)]
  · simp [device_context_clear_checkbits, upd_stream,
      Function.update_noteq (Ne.symm hij)]
  · simp [device_context_get_dev_checkbits, hagree]
  · simp [device_context_get_elapsed_time, hagree]
  · rcases block with _ | _
    · simp [device_context_sync, hagree]
    · by_cases hf : (dc.stream_ctx i).finished = true
      · simp [device_context_sync, hagree, hf]
      · by_cases hc : stream_complete (dc.stream_ctx i) copy_done = true
        · simp [device_context_sync, hagree, hf, hc]
        · simp [device_context_sync, hagree, hf, hc]
  · simp [device_context_clear_checkbits, upd_stream, Function.update_same, hagree]
  · cases s <;>
      simp [device_context_set_state, upd_stream, Function.update_same, hagree]

/-- Witness for C8 on dc2 with i = 1, j = 2, a blocking sync at time 7, a
WAIT_KERNEL set_state, 4 blocks, and as agreeing context dcb the context
dc2 with its slot 2 (only) moved to WAIT_COPY. -/
theorem device_context_stream_isolation_witness :
    valid_stream_id dc2 1 ∧ valid_stream_id dc2 2 ∧ (1 : Fin (MAX_STREAM + 1)) ≠ 2
    ∧ (device_context_set_state dc2 2 state.WAIT_COPY 3).stream_ctx 1 = dc2.stream_ctx 1
    ∧ ((device_context_sync dc2 1 true 7 false).map (slot 2)
        = (device_context_sync dc2 1 true 7 false).map
            (Function.const (device_context_t × Bool) (dc2.stream_ctx 2))
       ∧ (device_context_set_state dc2 1 state.WAIT_KERNEL 7).stream_ctx 2 = dc2.stream_ctx 2
       ∧ (device_context_clear_checkbits dc2 1 4).stream_ctx 2 = dc2.stream_ctx 2
       ∧ device_context_get_dev_checkbits (device_context_set_state dc2 2 state.WAIT_COPY 3) 1
           = device_context_get_dev_checkbits dc2 1
       ∧ device_context_get_elapsed_time (device_context_set_state dc2 2 state.WAIT_COPY 3) 1
           = device_context_get_elapsed_time dc2 1
       ∧ (device_context_sync (device_context_set_state dc2 2 state.WAIT_COPY 3) 1 true 7 false).map
           Prod.snd = (device_context_sync dc2 1 true 7 false).map Prod.snd
       ∧ (device_context_clear_checkbits (device_context_set_state dc2 2 state.WAIT_COPY 3) 1 4).stream_ctx 1
           = (device_context_clear_checkbits dc2 1 4).stream_ctx 1
       ∧ (device_context_set_state (device_context_set_state dc2 2 state.WAIT_COPY 3) 1 state.WAIT_KERNEL 7).stream_ctx 1
           = (device_context_set_state dc2 1 state.WAIT_KERNEL 7).stream_ctx 1) :=
  ⟨by decide, by decide, by decide, rfl,
    device_context_stream_isolation dc2 (device_context_set_state dc2 2 state.WAIT_COPY 3)
      1 2 true 7 false state.WAIT_KERNEL 4 (by decide) (by decide) (by decide) rfl⟩

/-- Claim C9: on a stream back in READY with finished = true,
get_elapsed_time returns end_usec - begin_usec of the operation it timed;
and the full timed cycle set_state(WAIT_KERNEL, at t1) followed by a
completed blocking sync at t2 (completion markers present) yields the
nonnegative duration t2 - t1. -/
theorem device_context_get_elapsed_time_spec (dc : device_context_t)
    (stream_id : Fin (MAX_STREAM + 1)) (t1 t2 : Nat) (copy_done : Bool)
    (hv : valid_stream_id dc stream_id)
    (hs : (dc.stream_ctx stream_id).state = state.READY)
    (hf : (dc.stream_ctx stream_id).finished = true)
    (hbe : (dc.stream_ctx stream_id).begin_usec ≤ (dc.stream_ctx stream_id).end_usec)
    (he : (dc.stream_ctx stream_id).end_usec < U64)
    (hk : kernel_complete (dc.stream_ctx stream_id) = true)
    (ht : t1 ≤ t2) (ht2 : t2 < U64) :
    device_context_get_elapsed_time dc stream_id
      = (dc.stream_ctx stream_id).end_usec - (dc.stream_ctx stream_id).begin_usec
    ∧ (device_context_sync (device_context_set_state dc stream_id state.WAIT_KERNEL t1)
        stream_id true t2 copy_done).map (elapsed_of stream_id) = some (t2 - t1) := by
  constructor
  · simp only [device_context_get_elapsed_time]
    rw [Nat.add_sub_assoc hbe, Nat.add_mod_left]
    exact Nat.mod_eq_of_lt (Nat.lt_of_le_of_lt (Nat.sub_le _ _) he)
  · have hslot : (device_context_set_state dc stream_id state.WAIT_KERNEL t1).stream_ctx
        stream_id
        = { dc.stream_ctx stream_id with
            state := state.WAIT_KERNEL, finished := false, begin_usec := t1 } := by
      simp [device_context_set_state, upd_stream, Function.update_same]
    have hk2 : stream_complete
        { dc.stream_ctx stream_id with
            state := state.WAIT_KERNEL, finished := false, begin_usec := t1 } copy_done
        = true := by
      rw [stream_complete_eq _ copy_done rfl]
      simpa [kernel_complete] using hk
    simp only [device_context_sync, hslot, hk2]
    simp [elapsed_of, device_context_get_elapsed_time, upd_stream, Function.update_same]
    rw [Nat.add_sub_assoc ht, Nat.add_mod_left]
    exact Nat.mod_eq_of_lt (Nat.lt_of_le_of_lt (Nat.sub_le _ _) ht2)

/-- Witness for C9 on dc2, stream 1, a cycle begun at time 5 and synced at
time 9. -/
theorem device_context_get_elapsed_time_spec_witness :
    valid_stream_id dc2 1
    ∧ (dc2.stream_ctx 1).state = state.READY
    ∧ (dc2.stream_ctx 1).finished = true
    ∧ (dc2.stream_ctx 1).begin_usec ≤ (dc2.stream_ctx 1).end_usec
    ∧ (dc2.stream_ctx 1).end_usec < U64
    ∧ kernel_complete (dc2.stream_ctx 1) = true
    ∧ (5 : Nat) ≤ 9 ∧ (9 : Nat) < U64
    ∧ (device_context_get_elapsed_time dc2 1
        = (dc2.stream_ctx 1).end_usec - (dc2.stream_ctx 1).begin_usec
       ∧ (device_context_sync (device_context_set_state dc2 1 state.WAIT_KERNEL 5)
           1 true 9 true).map (elapsed_of 1) = some (9 - 5)) :=
  ⟨by decide, by decide, by decide, by decide, by decide, by decide, by decide, by decide,
    device_context_get_elapsed_time_spec dc2 1 5 9 true (by decide) (by decide) (by decide)
      (by decide) (by decide) (by decide) (by decide) (by decide)⟩

end GpuCrypto
